import Mathlib

/-!
Verification of the FlexSim MCP server (`mcp_server/flexsim_mcp.py` and
`utility/config.py`) against its natural-language specification.

Shallow embedding: Python helper functions become Lean functions over `ℚ`
(simulation times), `String` (messages, paths, scripts) and `ℤ`/`ℕ`
(counts).  Engine interaction is modelled by passing the observable engine
readings (current simulation time, outcome of an engine call) as arguments
and by returning the list of commands a tool issues to the engine.  The
file system is modelled as a `String → Bool` existence predicate.  Input
validation performed by the pydantic models runs before a tool body, so a
tool pipeline returns `Except String α`, where `Except.error` is a rejected
request (validation failure) and `Except.ok` is the tool's text response.
-/

namespace FlexsimMcp

/-- Substring test over character lists: `pat` occurs contiguously in `s`. -/
def listHasSub (pat s : List Char) : Bool :=
  (List.range (s.length + 1)).any (fun i => ((s.drop i).take pat.length) == pat)

/-- Models the Python expression `pat in msg` for strings. -/
def strHasSub (msg pat : String) : Bool :=
  listHasSub pat.toList msg.toList

/-- Models Python `s.lower()` (ASCII case folding). -/
def strToLower (s : String) : String :=
  String.mk (s.data.map Char.toLower)

/-- Splits a character list on separator characters; adjacent separators
produce empty groups. -/
def splitChars (sep : Char → Bool) : List Char → List (List Char)
  | [] => [[]]
  | c :: cs =>
    let r := splitChars sep cs
    if sep c then [] :: r
    else
      match r with
      | [] => [[c]]
      | g :: gs => (c :: g) :: gs

/-- Round a rational to the nearest integer, ties to even, which is the
rounding rule of Python float formatting. -/
def rhe (q : ℚ) : ℤ :=
  let f : ℤ := ⌊q⌋
  let r : ℚ := q - f
  if r < 1/2 then f
  else if 1/2 < r then f + 1
  else if f % 2 = 0 then f else f + 1

/-- Models the Python format `f"{q:.2f}"` for a nonnegative value: the
number rendered with exactly two decimal digits. -/
def fmt2 (q : ℚ) : String :=
  let n : ℤ := rhe (q * 100)
  let whole : ℤ := n / 100
  let frac : ℕ := (n % 100).toNat
  toString whole ++ "." ++ (if frac < 10 then "0" ++ toString frac else toString frac)

/-- Embeds `format_time` of `flexsim_mcp.py`: format simulation time as a
human-readable string. -/
def format_time (seconds : ℚ) : String :=
  if seconds < 60 then fmt2 seconds ++ "s"
  else if seconds < 3600 then fmt2 (seconds / 60) ++ "m"
  else fmt2 (seconds / 3600) ++ "h"

/-- Embeds `format_error` of `flexsim_mcp.py`: format an exception message
as a user-friendly error string, classified by case-insensitive substring
match. -/
def format_error (msg : String) : String :=
  let low := strToLower msg
  if strHasSub low "not found" then "Not found: " ++ msg
  else if strHasSub low "syntax" then "FlexScript syntax error: " ++ msg
  else if strHasSub low "license" then "License error: " ++ msg
  else if strHasSub low "permission" then "Permission denied: " ++ msg
  else "Error: " ++ msg

/-- The try/except wrapper shared by every tool body: an exception from the
engine call (the `Except.error` case, carrying the exception message)
becomes the text produced by `format_error`; a normal result is returned
unchanged.  Every outcome is a text response. -/
def toolGuard (body : Except String String) : String :=
  match body with
  | Except.ok s => s
  | Except.error e => format_error e

/-- Commands a tool can issue to the FlexSim controller. -/
inductive EngCmd where
  | runToTime (t : ℚ)
  | evaluate (s : String)
  | run
  | stop
  deriving DecidableEq, Repr

/-! ### Path handling (`pathlib.Path` fragments used by the validators) -/

/-- Final path component (Python `Path(v).name`), splitting on both path
separators and ignoring empty components. -/
def pyPathName (v : String) : String :=
  String.mk
    (((splitChars (fun c => c == '/' || c == '\\') v.data).filter
      (fun g => g ≠ [])).getLastD [])

/-- File extension of the final component (Python `Path(v).suffix`): from
the last dot, provided that dot is neither the first nor the last character
of the name. -/
def pySuffix (v : String) : String :=
  let name := (pyPathName v).data
  let idxs := (List.range name.length).filter (fun i => name.get? i == some '.')
  match idxs.getLast? with
  | some i => if 0 < i ∧ i + 1 < name.length then String.mk (name.drop i) else ""
  | none => ""

/-- Final component without its extension (Python `Path(v).stem`). -/
def pyStem (v : String) : String :=
  let name := pyPathName v
  String.mk (name.data.take (name.length - (pySuffix v).length))

/-! ### Input models (pydantic) -/

/-- Embeds `OpenModelInput.validate_path`: the extension, lowercased, must
be `.fsm` or `.fsx`, and the file must exist; on success the resolved path
is returned.  `fsExists` models `Path.exists`, `resolve` models
`Path.resolve`. -/
def validate_path (fsExists : String → Bool) (resolve : String → String)
    (v : String) : Except String String :=
  if strToLower (pySuffix v) ∈ [".fsm", ".fsx"] then
    if fsExists v then Except.ok (resolve v)
    else Except.error ("File not found: " ++ v)
  else Except.error "Model must be .fsm or .fsx file"

/-- Embeds the whole `OpenModelInput` validation: the `min_length=1` field
constraint followed by `validate_path`. -/
def openModelInputValidate (fsExists : String → Bool) (resolve : String → String)
    (v : String) : Except String String :=
  if v.length < 1 then Except.error "String should have at least 1 character"
  else validate_path fsExists resolve v

/-- Embeds the `StepInput` field constraint `steps: int = Field(default=1,
ge=1, le=1000)`. -/
def stepInputValid (steps : ℤ) : Bool :=
  decide (1 ≤ steps) && decide (steps ≤ 1000)

/-- Embeds the `EvaluateScriptInput` field constraint `script: str =
Field(..., min_length=1, max_length=10000)`. -/
def evaluateScriptValid (script : String) : Bool :=
  decide (1 ≤ script.length) && decide (script.length ≤ 10000)

/-- Embeds the `ExportResultsInput` model: `export_path` is required and
`format` defaults to "csv", but neither field carries any constraint, so
every pair of strings is accepted. -/
def exportResultsInputValid (exportPath format : String) : Bool :=
  true

/-! ### Tools -/

/-- Embeds `flexsim_open_model`.  `engine p` is the observable outcome of
`get_controller` + `controller.open(p)` + `controller.time()` on the
validated path `p`: either the current simulation time or an exception
message.  Returns the response (`Except.error` = request rejected by
validation) and whether the session was accessed. -/
def flexsim_open_model (fsExists : String → Bool) (resolve : String → String)
    (v : String) (engine : String → Except String ℚ) :
    Except String String × Bool :=
  match openModelInputValidate fsExists resolve v with
  | Except.error e => (Except.error e, false)
  | Except.ok p =>
    match engine p with
    | Except.ok t =>
      (Except.ok ("✓ Opened: " ++ pyStem p ++ "\nTime: " ++ format_time t), true)
    | Except.error e => (Except.ok (format_error e), true)

/-- Embeds the body of `flexsim_run_to_time` after the initial
`controller.time()` read succeeded with value `start`: the no-op branch
when the target is already reached, otherwise the engine commands of the
chosen mode and the completion message built from the final time
`endTime`.  Returns the response and the simulation commands issued. -/
def run_to_time_body (start target : ℚ) (fast : Bool) (endTime : ℚ) :
    String × List EngCmd :=
  if start ≥ target then
    ("Already at time " ++ format_time start, [])
  else
    let cmds := if fast then [EngCmd.runToTime target]
      else [EngCmd.evaluate ("setstoptime(" ++ toString target ++ ")"),
            EngCmd.run, EngCmd.stop]
    let modeStr := if fast then "fast" else "real-time"
    ("✓ Simulation complete (" ++ modeStr ++ ")\n" ++
       "Start: " ++ format_time start ++ "\n" ++
       "End: " ++ format_time endTime ++ "\n" ++
       "Duration: " ++ format_time (endTime - start), cmds)

/-- Embeds `flexsim_run_to_time`.  `startOutcome` is the observable outcome
of `get_controller` + `controller.time()`; an exception there is caught and
classified, and no simulation command is issued. -/
def flexsim_run_to_time (startOutcome : Except String ℚ) (target : ℚ)
    (fast : Bool) (endTime : ℚ) : String × List EngCmd :=
  match startOutcome with
  | Except.error e => (format_error e, [])
  | Except.ok start => run_to_time_body start target fast endTime

/-- The loop body of `flexsim_step`: `controller.evaluate("step()")`
executed `steps` times. -/
def flexsim_step_cmds (steps : ℕ) : List EngCmd :=
  List.replicate steps (EngCmd.evaluate "step()")

/-- Embeds the `flexsim_step` pipeline: pydantic validation of `steps`,
then the loop issuing one single-step command per iteration.  `none` is a
rejected request; `some cmds` lists the engine commands issued. -/
def flexsim_step (steps : ℤ) : Option (List EngCmd) :=
  if stepInputValid steps then some (flexsim_step_cmds steps.toNat) else none

/-- Embeds `flexsim_get_time`.  `outcome` is the observable outcome of
`get_controller` + `controller.time()`. -/
def flexsim_get_time (outcome : Except String ℚ) : String :=
  toolGuard (outcome.map
    (fun t => "Time: " ++ format_time t ++ " (" ++ fmt2 t ++ "s)"))

/-- Embeds the `flexsim_evaluate` pipeline: pydantic validation of the
script, then `controller.evaluate(script)`, whose outcome (result rendering
or exception message) is `engineOutcome`.  Returns the response
(`Except.error` = rejected by validation) and the engine commands
attempted. -/
def flexsim_evaluate (script : String) (engineOutcome : Except String String) :
    Except String String × List EngCmd :=
  if evaluateScriptValid script then
    match engineOutcome with
    | Except.ok r => (Except.ok ("Result: " ++ r), [EngCmd.evaluate script])
    | Except.error e =>
      (Except.ok ("Script error: " ++ format_error e), [EngCmd.evaluate script])
  else (Except.error "String length out of range", [])

/-- Embeds the export-script selection of `flexsim_export_results`: the
format, lowercased, picks the engine command. -/
def export_script (format exportPath : String) : String :=
  let fmt := strToLower format
  if fmt == "csv" then "exporttable(\"" ++ exportPath ++ "\")"
  else if fmt == "xlsx" then "exportexcel(\"" ++ exportPath ++ "\")"
  else "exportjson(\"" ++ exportPath ++ "\")"

/-! ### Session holder (`get_controller`) -/

/-- One caller's pass through the lock-protected critical section of
`get_controller`: with the lock held, if the global `_controller` is still
`none` the launch runs (its outcome is the deterministic `launchOutcome`),
otherwise the existing handle is returned.  Yields the new global state,
the caller's result, and whether a launch was attempted. -/
def get_controller_once (state : Option ℕ) (launchOutcome : Except String ℕ) :
    Option ℕ × Except String ℕ × Bool :=
  match state with
  | some c => (some c, Except.ok c, false)
  | none =>
    match launchOutcome with
    | Except.ok c => (some c, Except.ok c, true)
    | Except.error e => (none, Except.error e, true)

/-- N concurrent callers of `get_controller`: `asyncio.Lock` serializes the
critical sections, so the concurrent execution is some sequential
interleaving of `get_controller_once` passes.  Yields the final global
state, the callers' results in order, and the number of launch attempts. -/
def get_controller_serial :
    ℕ → Option ℕ → Except String ℕ → Option ℕ × List (Except String ℕ) × ℕ
  | 0, st, _ => (st, [], 0)
  | n + 1, st, lo =>
    let r1 := get_controller_once st lo
    let rest := get_controller_serial n r1.1 lo
    (rest.1, r1.2.1 :: rest.2.1, (if r1.2.2 then 1 else 0) + rest.2.2)

/-! ### Launch (`launch_flexsim_sync`) and configuration (`config.py`) -/

/-- Embeds the install-directory resolution of `launch_flexsim_sync`: the
primary path if it exists, otherwise the first existing alternative path,
otherwise the `FileNotFoundError` message of the for-else branch. -/
def resolve_program_dir (fsExists : String → Bool) (primary : String)
    (alts : List String) : Except String String :=
  if fsExists primary then Except.ok primary
  else
    match alts.find? fsExists with
    | some p => Except.ok p
    | none =>
      Except.error ("FlexSim not found at " ++ primary ++
        ". Update config.toml with correct path.")

/-- Embeds `launch_flexsim_sync` (with the `FlexSimPy` module available):
resolve the program directory, then call `FlexSimPy.launch` on it.  The
boolean records whether the launch was attempted; on a resolution failure
the `FileNotFoundError` propagates and no launch happens. -/
def launch_flexsim_sync (fsExists : String → Bool) (primary : String)
    (alts : List String) : Except String String × Bool :=
  match resolve_program_dir fsExists primary alts with
  | Except.ok p => (Except.ok p, true)
  | Except.error e => (Except.error e, false)

/-- The environment `Config._find_config_file` consults: a file-existence
predicate, the optional `FLEXSIM_CONFIG_PATH` environment variable, and the
paths of `config.toml` in the working directory and in the project
root. -/
structure ConfigEnv where
  fsExists : String → Bool
  envPath : Option String
  cwdConfig : String
  rootConfig : String

/-- The tail of `Config._find_config_file` after the explicit-argument and
environment-variable branches: working-directory `config.toml`, then
project-root `config.toml`, then `none` (defaults). -/
def find_config_rest (env : ConfigEnv) : Option String :=
  if env.fsExists env.cwdConfig then some env.cwdConfig
  else if env.fsExists env.rootConfig then some env.rootConfig
  else none

/-- Embeds `Config._find_config_file`: an explicit path argument is
returned if it exists and otherwise the search ends with `none` (defaults);
without an explicit argument, a set environment-variable path is returned
if it exists, and a non-existing one falls through to the working-directory
and project-root candidates. -/
def find_config_file (env : ConfigEnv) (configPath : Option String) :
    Option String :=
  match configPath with
  | some p => if env.fsExists p then some p else none
  | none =>
    match env.envPath with
    | some ep => if env.fsExists ep then some ep else find_config_rest env
    | none => find_config_rest env

/-- The configuration-file search as the specification words it: the first
existing location in the precedence order explicit argument > environment
variable > working directory > install root, with `none` (defaults) only
when none of the consulted locations exists. -/
def find_config_file_per_spec (env : ConfigEnv) (configPath : Option String) :
    Option String :=
  ((configPath.toList ++ env.envPath.toList) ++
    [env.cwdConfig, env.rootConfig]).find? env.fsExists

/-- The configuration-file search as the amended claim words it: a supplied
explicit argument is the only location consulted (falling back directly to
defaults when it does not exist); otherwise the environment variable, the
working directory and the install root are consulted in order. -/
def find_config_file_amended (env : ConfigEnv) (configPath : Option String) :
    Option String :=
  match configPath with
  | some p => if env.fsExists p then some p else none
  | none => (env.envPath.toList ++ [env.cwdConfig, env.rootConfig]).find? env.fsExists

/-- A concrete environment for the configuration-search counterexample: the
working-directory `config.toml` is the only existing file. -/
def c9Env : ConfigEnv where
  fsExists := fun s => s == "/cwd/config.toml"
  envPath := none
  cwdConfig := "/cwd/config.toml"
  rootConfig := "/proj/config.toml"

/-! ## Theorems -/

/-- Claim C2: for every run-to-time request whose target time is at most
the current simulation time, the response is the "Already at time ..."
no-op message and no engine command is issued. -/
theorem run_to_time_noop (start target endTime : ℚ) (fast : Bool)
    (h : target ≤ start) :
    flexsim_run_to_time (Except.ok start) target fast endTime =
      ("Already at time " ++ format_time start, []) := by
  simp only [flexsim_run_to_time, run_to_time_body, ge_iff_le, if_pos h]

/-- Witness for C2: at current time 5 and target 3 the tool answers
"Already at time 5.00s" and issues no engine command. -/
theorem run_to_time_noop_witness :
    (3 : ℚ) ≤ 5 ∧
      flexsim_run_to_time (Except.ok 5) 3 true 0 =
        ("Already at time " ++ format_time 5, []) :=
  ⟨by norm_num, run_to_time_noop 5 3 0 true (by norm_num)⟩

/-- Claim C3: a steps value outside `[1, 1000]` is rejected by validation,
and a value inside the range passes validation and issues exactly `steps`
sequential `evaluate("step()")` commands. -/
theorem step_bounds_and_commands (steps : ℤ) :
    (¬ (1 ≤ steps ∧ steps ≤ 1000) → flexsim_step steps = none) ∧
    (1 ≤ steps → steps ≤ 1000 →
      ∃ cmds, flexsim_step steps = some cmds ∧
        (cmds.length : ℤ) = steps ∧
        ∀ c ∈ cmds, c = EngCmd.evaluate "step()") := by
  constructor
  · intro h
    have hv : stepInputValid steps = false := by
      simp only [stepInputValid, Bool.and_eq_false_iff, decide_eq_false_iff_not]
      omega
    simp [flexsim_step, hv]
  · intro h1 h2
    have hv : stepInputValid steps = true := by
      simp only [stepInputValid, Bool.and_eq_true, decide_eq_true_eq]
      exact ⟨h1, h2⟩
    refine ⟨flexsim_step_cmds steps.toNat, by simp [flexsim_step, hv], ?_, ?_⟩
    · simp only [flexsim_step_cmds, List.length_replicate]
      omega
    · intro c hc
      simpa [flexsim_step_cmds] using List.eq_of_mem_replicate hc

/-- Witness for C3: steps = 3 passes validation and issues three step
commands, and steps = 0 is rejected. -/
theorem step_bounds_and_commands_witness :
    (∃ cmds, flexsim_step 3 = some cmds ∧ (cmds.length : ℤ) = 3 ∧
      ∀ c ∈ cmds, c = EngCmd.evaluate "step()") ∧
    flexsim_step 0 = none :=
  ⟨(step_bounds_and_commands 3).2 (by norm_num) (by norm_num),
   (step_bounds_and_commands 0).1 (by omega)⟩

/-- Claim C5: for nonnegative times the formatter scales by unit
thresholds — under 60 seconds with two decimals, under 3600 minutes,
otherwise hours — and in particular 45.0 renders "45.00s", 125.0 renders
"2.08m" and 7200.0 renders "2.00h". -/
theorem format_time_thresholds :
    (∀ t : ℚ, 0 ≤ t → t < 60 → format_time t = fmt2 t ++ "s") ∧
    (∀ t : ℚ, 60 ≤ t → t < 3600 → format_time t = fmt2 (t / 60) ++ "m") ∧
    (∀ t : ℚ, 3600 ≤ t → format_time t = fmt2 (t / 3600) ++ "h") ∧
    format_time 45 = "45.00s" ∧ format_time 125 = "2.08m" ∧
    format_time 7200 = "2.00h" := by
  refine ⟨?_, ?_, ?_, ?_, ?_, ?_⟩
  · intro t _ h
    rw [format_time, if_pos h]
  · intro t h1 h2
    rw [format_time, if_neg (by linarith), if_pos h2]
  · intro t h
    rw [format_time, if_neg (by linarith), if_neg (by linarith)]
  · norm_num [format_time, fmt2, rhe]; decide
  · norm_num [format_time, fmt2, rhe]; decide
  · norm_num [format_time, fmt2, rhe]; decide

/-- Witness for C5: the seconds branch applied at t = 45 and the hours
branch applied at t = 7200. -/
theorem format_time_thresholds_witness :
    format_time 45 = fmt2 45 ++ "s" ∧
      format_time 7200 = fmt2 (7200 / 3600) ++ "h" :=
  ⟨format_time_thresholds.1 45 (by norm_num) (by norm_num),
   format_time_thresholds.2.2.1 7200 (by norm_num)⟩

/-- Claim C6: an evaluate request whose script is empty or longer than
10000 characters is rejected by validation with no engine call; every
script of length 1 to 10000 passes validation and reaches the engine. -/
theorem evaluate_script_length_bounds (script : String)
    (outcome : Except String String) :
    ((script.length = 0 ∨ 10000 < script.length) →
      flexsim_evaluate script outcome =
        (Except.error "String length out of range", [])) ∧
    (1 ≤ script.length → script.length ≤ 10000 →
      evaluateScriptValid script = true ∧
      (flexsim_evaluate script outcome).2 = [EngCmd.evaluate script] ∧
      ∃ s, (flexsim_evaluate script outcome).1 = Except.ok s) := by
  constructor
  · intro h
    have hv : evaluateScriptValid script = false := by
      simp only [evaluateScriptValid, Bool.and_eq_false_iff, decide_eq_false_iff_not]
      omega
    simp [flexsim_evaluate, hv]
  · intro h1 h2
    have hv : evaluateScriptValid script = true := by
      simp only [evaluateScriptValid, Bool.and_eq_true, decide_eq_true_eq]
      exact ⟨h1, h2⟩
    refine ⟨hv, ?_, ?_⟩ <;> cases outcome <;> simp [flexsim_evaluate, hv]

/-- Witness for C6: the one-character script "x" passes validation and
reaches the engine, and the empty script is rejected without any engine
call. -/
theorem evaluate_script_length_bounds_witness :
    (evaluateScriptValid "x" = true ∧
      (flexsim_evaluate "x" (Except.ok "1")).2 = [EngCmd.evaluate "x"] ∧
      ∃ s, (flexsim_evaluate "x" (Except.ok "1")).1 = Except.ok s) ∧
    flexsim_evaluate "" (Except.ok "1") =
      (Except.error "String length out of range", []) :=
  ⟨(evaluate_script_length_bounds "x" (Except.ok "1")).2 (by decide) (by decide),
   (evaluate_script_length_bounds "" (Except.ok "1")).1 (Or.inl (by decide))⟩

/-- Claim C10: the export command is chosen by case-insensitive match on
the format field — "csv" selects the table export, "xlsx" the Excel
export, and every other string the JSON export — and no format value is
rejected by validation. -/
theorem export_results_format_choice (format exportPath : String) :
    exportResultsInputValid exportPath format = true ∧
    (strToLower format = "csv" →
      export_script format exportPath = "exporttable(\"" ++ exportPath ++ "\")") ∧
    (strToLower format = "xlsx" →
      export_script format exportPath = "exportexcel(\"" ++ exportPath ++ "\")") ∧
    (strToLower format ≠ "csv" → strToLower format ≠ "xlsx" →
      export_script format exportPath = "exportjson(\"" ++ exportPath ++ "\")") := by
  refine ⟨rfl, ?_, ?_, ?_⟩
  · intro h
    simp [export_script, h]
  · intro h
    have hne : strToLower format ≠ "csv" := by simp [h]
    simp [export_script, h, hne]
  · intro h1 h2
    simp [export_script, h1, h2]

/-- Witness for C10: the unconstrained format "YAML" is accepted and maps
to the JSON export command. -/
theorem export_results_format_choice_witness :
    exportResultsInputValid "out.yaml" "YAML" = true ∧
      export_script "YAML" "out.yaml" = "exportjson(\"" ++ "out.yaml" ++ "\")" :=
  ⟨(export_results_format_choice "YAML" "out.yaml").1,
   (export_results_format_choice "YAML" "out.yaml").2.2.2 (by decide) (by decide)⟩

/-- Claim C1: every exception from an engine call is caught at the tool
boundary and classified by case-insensitive substring match of its message
("not found", then "syntax", then "license", then "permission", else
generic) into a category prefix, and each modelled tool maps every engine
error to a text response — no exception reaches the transport layer. -/
theorem error_classification_total :
    (∀ msg, strHasSub (strToLower msg) "not found" = true →
      format_error msg = "Not found: " ++ msg) ∧
    (∀ msg, strHasSub (strToLower msg) "not found" = false →
      strHasSub (strToLower msg) "syntax" = true →
      format_error msg = "FlexScript syntax error: " ++ msg) ∧
    (∀ msg, strHasSub (strToLower msg) "not found" = false →
      strHasSub (strToLower msg) "syntax" = false →
      strHasSub (strToLower msg) "license" = true →
      format_error msg = "License error: " ++ msg) ∧
    (∀ msg, strHasSub (strToLower msg) "not found" = false →
      strHasSub (strToLower msg) "syntax" = false →
      strHasSub (strToLower msg) "license" = false →
      strHasSub (strToLower msg) "permission" = true →
      format_error msg = "Permission denied: " ++ msg) ∧
    (∀ msg, strHasSub (strToLower msg) "not found" = false →
      strHasSub (strToLower msg) "syntax" = false →
      strHasSub (strToLower msg) "license" = false →
      strHasSub (strToLower msg) "permission" = false →
      format_error msg = "Error: " ++ msg) ∧
    (∀ e, toolGuard (Except.error e) = format_error e) ∧
    (∀ e, flexsim_get_time (Except.error e) = format_error e) ∧
    (∀ e target endTime fast,
      flexsim_run_to_time (Except.error e) target fast endTime =
        (format_error e, [])) ∧
    (∀ fsExists resolve v p e,
      openModelInputValidate fsExists resolve v = Except.ok p →
      flexsim_open_model fsExists resolve v (fun _ => Except.error e) =
        (Except.ok (format_error e), true)) ∧
    (∀ script e, evaluateScriptValid script = true →
      (flexsim_evaluate script (Except.error e)).1 =
        Except.ok ("Script error: " ++ format_error e)) := by
  refine ⟨?_, ?_, ?_, ?_, ?_, fun e => rfl, fun e => rfl, fun e t et f => rfl, ?_, ?_⟩
  · intro msg h
    simp [format_error, h]
  · intro msg h1 h2
    simp [format_error, h1, h2]
  · intro msg h1 h2 h3
    simp [format_error, h1, h2, h3]
  · intro msg h1 h2 h3 h4
    simp [format_error, h1, h2, h3, h4]
  · intro msg h1 h2 h3 h4
    simp [format_error, h1, h2, h3, h4]
  · intro fsExists resolve v p e h
    simp [flexsim_open_model, h]
  · intro script e h
    simp [flexsim_evaluate, h]

/-- Witness for C1: the message "Model Not Found" is classified with the
"Not found" prefix, and an open-model engine failure on a concrete valid
path comes back as that classified text response. -/
theorem error_classification_total_witness :
    format_error "Model Not Found" = "Not found: " ++ "Model Not Found" ∧
    flexsim_open_model (fun s => s == "m.fsm") (fun s => s) "m.fsm"
        (fun _ => Except.error "License expired") =
      (Except.ok (format_error "License expired"), true) :=
  ⟨error_classification_total.1 "Model Not Found" (by decide),
   error_classification_total.2.2.2.2.2.2.2.2.1
     (fun s => s == "m.fsm") (fun s => s) "m.fsm" "m.fsm" "License expired"
     (by rfl)⟩

/-- Claim C4: an open-model input whose extension is not `.fsm`/`.fsx`
(case-insensitively) or whose file does not exist is rejected by validation
before any session access, and otherwise validation succeeds with the
resolved path. -/
theorem open_model_path_validation (fsExists : String → Bool)
    (resolve : String → String) (v : String)
    (engine : String → Except String ℚ) :
    ((strToLower (pySuffix v) ∉ [".fsm", ".fsx"] ∨ fsExists v = false) →
      (flexsim_open_model fsExists resolve v engine).2 = false ∧
      ∃ e, (flexsim_open_model fsExists resolve v engine).1 = Except.error e) ∧
    (strToLower (pySuffix v) ∈ [".fsm", ".fsx"] → fsExists v = true →
      openModelInputValidate fsExists resolve v = Except.ok (resolve v) ∧
      (flexsim_open_model fsExists resolve v engine).2 = true) := by
  constructor
  · intro h
    have herr : ∃ e, openModelInputValidate fsExists resolve v = Except.error e := by
      unfold openModelInputValidate validate_path
      by_cases hl : v.length < 1
      · exact ⟨"String should have at least 1 character", by rw [if_pos hl]⟩
      · rw [if_neg hl]
        by_cases hm : strToLower (pySuffix v) ∈ [".fsm", ".fsx"]
        · rcases h with h | h
          · exact absurd hm h
          · rw [if_pos hm, if_neg (by simp [h])]
            exact ⟨_, rfl⟩
        · rw [if_neg hm]
          exact ⟨_, rfl⟩
    obtain ⟨e, he⟩ := herr
    exact ⟨by simp [flexsim_open_model, he], e, by simp [flexsim_open_model, he]⟩
  · intro hmem hex
    have hv : ¬ v.length < 1 := by
      intro hl
      have hsuf : pySuffix v = "" := by
        cases v with
        | mk d =>
          have hd : d = [] := by
            have h0 : d.length = 0 := by
              simpa [String.length] using Nat.lt_one_iff.mp hl
            exact List.length_eq_zero.mp h0
          subst hd
          decide
      rw [hsuf] at hmem
      exact absurd hmem (by decide)
    have hvalid : openModelInputValidate fsExists resolve v = Except.ok (resolve v) := by
      unfold openModelInputValidate validate_path
      rw [if_neg hv, if_pos hmem, if_pos hex]
    refine ⟨hvalid, ?_⟩
    cases he : engine (resolve v) <;> simp [flexsim_open_model, hvalid, he]

/-- Witness for C4: "ok.fsm" on a file system where it exists validates to
its resolved path and the session is accessed, while "bad.txt" is rejected
without touching the session. -/
theorem open_model_path_validation_witness :
    (openModelInputValidate (fun s => s == "ok.fsm") (fun s => s) "ok.fsm" =
        Except.ok "ok.fsm" ∧
      (flexsim_open_model (fun s => s == "ok.fsm") (fun s => s) "ok.fsm"
          (fun _ => Except.ok 0)).2 = true) ∧
    ((flexsim_open_model (fun s => s == "ok.fsm") (fun s => s) "bad.txt"
        (fun _ => Except.ok 0)).2 = false ∧
      ∃ e, (flexsim_open_model (fun s => s == "ok.fsm") (fun s => s) "bad.txt"
        (fun _ => Except.ok 0)).1 = Except.error e) :=
  ⟨(open_model_path_validation (fun s => s == "ok.fsm") (fun s => s) "ok.fsm"
      (fun _ => Except.ok 0)).2 (by decide) (by decide),
   (open_model_path_validation (fun s => s == "ok.fsm") (fun s => s) "bad.txt"
      (fun _ => Except.ok 0)).1 (Or.inl (by decide))⟩

/-- Helper: once the controller handle exists, every further caller gets
the same handle back and no launch is attempted. -/
theorem get_controller_serial_from_some (n : ℕ) (h : ℕ)
    (lo : Except String ℕ) :
    get_controller_serial n (some h) lo =
      (some h, List.replicate n (Except.ok h), 0) := by
  induction n with
  | zero => simp [get_controller_serial]
  | succ m ih =>
    simp [get_controller_serial, get_controller_once, ih, List.replicate_succ]

/-- Helper: with a deterministically failing launch, every caller attempts
the launch, fails identically, and the controller stays absent. -/
theorem get_controller_serial_fail (n : ℕ) (e : String) :
    get_controller_serial n none (Except.error e) =
      (none, List.replicate n (Except.error e), n) := by
  induction n with
  | zero => simp [get_controller_serial]
  | succ m ih =>
    simp [get_controller_serial, get_controller_once, ih, List.replicate_succ]
    omega

/-- Claim C7: N ≥ 1 serialized first callers of `get_controller` (the
`asyncio.Lock` serializes the critical sections) produce exactly one launch
and N returns of the same handle when the launch succeeds, N identical
failures when it fails, and never more than one successful
initialization — at most one session exists per process. -/
theorem controller_single_flight (n : ℕ) (h : ℕ) (e : String) (hn : 1 ≤ n) :
    get_controller_serial n none (Except.ok h) =
      (some h, List.replicate n (Except.ok h), 1) ∧
    get_controller_serial n none (Except.error e) =
      (none, List.replicate n (Except.error e), n) ∧
    (∀ m : ℕ, (get_controller_serial m none (Except.ok h)).2.2 ≤ 1) := by
  refine ⟨?_, get_controller_serial_fail n e, ?_⟩
  · obtain ⟨m, rfl⟩ : ∃ m, n = m + 1 := ⟨n - 1, by omega⟩
    simp [get_controller_serial, get_controller_once,
      get_controller_serial_from_some, List.replicate_succ]
  · intro m
    cases m with
    | zero => simp [get_controller_serial]
    | succ k =>
      simp [get_controller_serial, get_controller_once,
        get_controller_serial_from_some]

/-- Witness for C7: three serialized first callers with a launch returning
handle 7 perform one launch and all get handle 7; with a launch raising
"boom" all three fail identically. -/
theorem controller_single_flight_witness :
    get_controller_serial 3 none (Except.ok 7) =
      (some 7, List.replicate 3 (Except.ok 7), 1) ∧
    get_controller_serial 3 none (Except.error "boom") =
      (none, List.replicate 3 (Except.error "boom"), 3) :=
  ⟨(controller_single_flight 3 7 "boom" (by norm_num)).1,
   (controller_single_flight 3 7 "boom" (by norm_num)).2.1⟩

/-- Claim C8: when the primary install path does not exist, the launch
uses the first existing fallback path in configured order, and when no
fallback exists either, it fails with the distinct "not found" error and
never attempts the engine launch. -/
theorem launch_fallback_paths (fsExists : String → Bool) (primary : String)
    (alts : List String) (hp : fsExists primary = false) :
    (∀ p, launch_flexsim_sync fsExists primary alts = (Except.ok p, true) ↔
      (fsExists p = true ∧
        ∃ pre post, alts = pre ++ p :: post ∧ ∀ q ∈ pre, fsExists q = false)) ∧
    ((∀ q ∈ alts, fsExists q = false) →
      launch_flexsim_sync fsExists primary alts =
        (Except.error ("FlexSim not found at " ++ primary ++
          ". Update config.toml with correct path."), false)) := by
  have hres : resolve_program_dir fsExists primary alts =
      (match alts.find? fsExists with
       | some p => Except.ok p
       | none =>
         Except.error ("FlexSim not found at " ++ primary ++
           ". Update config.toml with correct path.")) := by
    rw [resolve_program_dir, if_neg (by simp [hp])]
  constructor
  · intro p
    constructor
    · intro h
      cases hf : alts.find? fsExists with
      | some q =>
        have hq : q = p := by
          rw [launch_flexsim_sync, hres, hf] at h
          simpa using h
        subst hq
        obtain ⟨hx, pre, post, heq, hpre⟩ := List.find?_eq_some.mp hf
        exact ⟨hx, pre, post, heq, fun a ha => by simpa using hpre a ha⟩
      | none =>
        rw [launch_flexsim_sync, hres, hf] at h
        simp at h
    · rintro ⟨hx, pre, post, heq, hpre⟩
      have hf : alts.find? fsExists = some p :=
        List.find?_eq_some.mpr ⟨hx, pre, post, heq,
          fun a ha => by simp [hpre a ha]⟩
      rw [launch_flexsim_sync, hres, hf]
  · intro hall
    have hf : alts.find? fsExists = none :=
      List.find?_eq_none.mpr (fun x hx => by simp [hall x hx])
    rw [launch_flexsim_sync, hres, hf]

/-- Witness for C8: with a missing primary path "A" and the fallbacks
["X", "B"] of which only "B" exists, the launch uses "B"; with the
fallback list ["X"] containing no existing path, the launch fails with the
"not found" error and is never attempted. -/
theorem launch_fallback_paths_witness :
    launch_flexsim_sync (fun s => s == "B") "A" ["X", "B"] =
      (Except.ok "B", true) ∧
    launch_flexsim_sync (fun s => s == "B") "A" ["X"] =
      (Except.error ("FlexSim not found at " ++ "A" ++
        ". Update config.toml with correct path."), false) :=
  ⟨((launch_fallback_paths (fun s => s == "B") "A" ["X", "B"] (by decide)).1
      "B").mpr ⟨by decide, ["X"], [], rfl, by decide⟩,
   (launch_fallback_paths (fun s => s == "B") "A" ["X"] (by decide)).2
     (by decide)⟩

/-- Counterexample for C9: with an explicit path argument that does not
exist and an existing working-directory `config.toml`, the code gives up
immediately (defaults) instead of consulting the lower-precedence
locations as the claim states. -/
theorem find_config_search_counterexample :
    find_config_file c9Env (some "/missing/config.toml") ≠
      find_config_file_per_spec c9Env (some "/missing/config.toml") := by
  decide

/-- Claim C9 as amended: a supplied explicit path argument takes priority
and is the only location consulted — when it does not resolve the loader
falls back directly to the defaults; without an explicit argument the
environment variable, the working-directory file and the install-root file
are consulted in that order before the defaults. -/
theorem find_config_precedence_amended (env : ConfigEnv) (cp : Option String) :
    find_config_file env cp = find_config_file_amended env cp := by
  cases cp with
  | some p => rfl
  | none =>
    cases henv : env.envPath with
    | none =>
      cases hc : env.fsExists env.cwdConfig <;>
        cases hr : env.fsExists env.rootConfig <;>
        simp [find_config_file, find_config_file_amended, find_config_rest,
          henv, List.find?, hc, hr]
    | some ep =>
      cases he : env.fsExists ep <;>
        cases hc : env.fsExists env.cwdConfig <;>
        cases hr : env.fsExists env.rootConfig <;>
        simp [find_config_file, find_config_file_amended, find_config_rest,
          henv, List.find?, he, hc, hr]

end FlexsimMcp
